import Mathlib

/-
Verification of the LookCircuit face-analysis pipeline
(`lookcircuit-backend/ai/face_analysis/`): shallow embedding of the
skin-tone, face-shape, baldness and orchestrator modules, with theorems
checking the documented behaviour.

Python floats are modelled as rationals (ℚ); all arithmetic in the
embedded functions is exact rational arithmetic mirroring the source
expressions.  Calls into OpenCV / MediaPipe (pixel-level colour masks,
landmark detection) are not reimplemented: they are abstracted as
function parameters, while every piece of control flow and arithmetic of
the repository's own code is translated directly.
-/

namespace LookCircuit

/-! ## Skin tone module (`skin_tone.py`) -/

/-- Fitzpatrick Skin Type Scale (I-VI), from `skin_tone.py`. -/
inductive FitzpatrickType
  | TYPE_I
  | TYPE_II
  | TYPE_III
  | TYPE_IV
  | TYPE_V
  | TYPE_VI
deriving DecidableEq, Repr

/-- Numeric value attached to each enum member (`TYPE_I = 1`, ...). -/
def FitzpatrickType.value : FitzpatrickType → ℕ
  | .TYPE_I => 1
  | .TYPE_II => 2
  | .TYPE_III => 3
  | .TYPE_IV => 4
  | .TYPE_V => 5
  | .TYPE_VI => 6

/-- Skin undertone classification, from `skin_tone.py`. -/
inductive Undertone
  | COOL
  | WARM
  | NEUTRAL
deriving DecidableEq, Repr

/-- `SkinToneDetector.FITZPATRICK_L_THRESHOLDS`: the L* band of each
Fitzpatrick type, listed in the dict's insertion order (the order the
Python `for` loop visits them).  Each entry is `(type, low, high)`. -/
def FITZPATRICK_L_THRESHOLDS : List (FitzpatrickType × ℚ × ℚ) :=
  [(.TYPE_I, 75, 100),
   (.TYPE_II, 65, 75),
   (.TYPE_III, 55, 65),
   (.TYPE_IV, 45, 55),
   (.TYPE_V, 35, 45),
   (.TYPE_VI, 0, 35)]

/-- Loop body of `SkinToneDetector._classify_fitzpatrick`: walk the
threshold table in order and return on the first band containing
`l_value` (test `low <= l_value < high`), with the confidence
`max(0.7, min(0.98, 1 - |l - center| / (range/2)))` computed in the
source. -/
def classify_fitzpatrick_loop (l_value : ℚ) :
    List (FitzpatrickType × ℚ × ℚ) → Option (FitzpatrickType × ℚ)
  | [] => none
  | (fitz_type, low, high) :: rest =>
    if low ≤ l_value ∧ l_value < high then
      let range_size := high - low
      let center := (low + high) / 2
      let distance_from_center := |l_value - center|
      let confidence := 1 - distance_from_center / (range_size / 2)
      some (fitz_type, max (7/10) (min (98/100) confidence))
    else
      classify_fitzpatrick_loop l_value rest

/-- `SkinToneDetector._classify_fitzpatrick`: band lookup over the
threshold table, with the out-of-band edge cases of the source
(`l_value >= 75` snaps to TYPE_I, otherwise TYPE_VI, both at fixed
confidence 0.85). -/
def classify_fitzpatrick (l_value : ℚ) : FitzpatrickType × ℚ :=
  match classify_fitzpatrick_loop l_value FITZPATRICK_L_THRESHOLDS with
  | some result => result
  | none =>
    if 75 ≤ l_value then (.TYPE_I, 85/100) else (.TYPE_VI, 85/100)

/-- `SkinToneDetector._classify_undertone`: shift a*, b* by +128,
guard a zero denominator with 0.01, take the ratio b/a and classify
against the 1.1 / 0.9 thresholds, with the confidence formulas of the
source. -/
def classify_undertone (a_value b_value : ℚ) : Undertone × ℚ :=
  let a_shifted := a_value + 128
  let b_shifted := b_value + 128
  let a_guarded := if a_shifted = 0 then 1/100 else a_shifted
  let ratio := b_shifted / a_guarded
  if ratio > 11/10 then
    (Undertone.WARM, min (95/100) (7/10 + (ratio - 11/10) * (1/10)))
  else if ratio < 9/10 then
    (Undertone.COOL, min (95/100) (7/10 + (9/10 - ratio) * (1/10)))
  else
    (Undertone.NEUTRAL, 8/10 + (1 - |ratio - 1|) * (15/100))

/-- `SkinToneDetector.get_season`: the season table used by the
Orchestrator.  `is_light` is `fitzpatrick.value <= 3`; `is_warm` is
`undertone == Undertone.WARM` (so NEUTRAL falls on the not-warm side in
both branches). -/
def get_season (fitzpatrick : FitzpatrickType) (undertone : Undertone) : String :=
  let is_light : Bool := fitzpatrick.value ≤ 3
  let is_warm : Bool := undertone = Undertone.WARM
  if is_light ∧ is_warm then "spring"
  else if is_light ∧ ¬ is_warm then "summer"
  else if ¬ is_light ∧ is_warm then "autumn"
  else "winter"

/-! ## Face shape module (`face_shape.py`) -/

/-- Face shape classification categories, from `face_shape.py`. -/
inductive FaceShape
  | OVAL
  | ROUND
  | SQUARE
  | HEART
  | OBLONG
  | DIAMOND
  | TRIANGLE
deriving DecidableEq, Repr

/-- Measurement dictionary as read by `FaceShapeClassifier.classify`:
only the six keys the method looks up are modelled, each `Option`al
because `dict.get(key, default)` supplies a default when the key is
missing. -/
structure Measurements where
  length_width_ratio : Option ℚ
  forehead_jaw_ratio : Option ℚ
  jawline_angle : Option ℚ
  forehead_width : Option ℚ
  jaw_width : Option ℚ
  cheekbone_width : Option ℚ

/-- Per-category scores of
`FaceShapeClassifier._apply_classification_rules`, in the insertion
order of the Python `scores` dict (ROUND, OBLONG, HEART, TRIANGLE,
SQUARE, DIAMOND, OVAL).  Each score is the sum of the conditional
increments of the source. -/
def face_shape_scores (length_width forehead_jaw jawline_angle
    cheekbone_forehead_ratio cheekbone_jaw_ratio : ℚ) :
    List (FaceShape × ℚ) :=
  let round_score :=
    (if length_width < 11/10 then (4:ℚ)/10 else 0) +
    (if 95/100 < forehead_jaw ∧ forehead_jaw < 105/100 then (3:ℚ)/10 else 0) +
    (if jawline_angle < 145 then (3:ℚ)/10 else 0)
  let oblong_score :=
    (if length_width > 13/10 then
      (6:ℚ)/10 + min (4/10) ((length_width - 13/10) * (5/10)) else 0) +
    (if 9/10 < forehead_jaw ∧ forehead_jaw < 11/10 then (2:ℚ)/10 else 0)
  let heart_score :=
    (if forehead_jaw > 11/10 then
      (5:ℚ)/10 + min (3/10) ((forehead_jaw - 11/10) * (3/10)) else 0) +
    (if length_width > 1 then (2:ℚ)/10 else 0)
  let triangle_score :=
    (if forehead_jaw < 9/10 then
      (5:ℚ)/10 + min (3/10) ((9/10 - forehead_jaw) * (3/10)) else 0)
  let square_score :=
    (if jawline_angle > 150 then (4:ℚ)/10 else 0) +
    (if length_width < 115/100 then (3:ℚ)/10 else 0) +
    (if 9/10 < forehead_jaw ∧ forehead_jaw < 11/10 then (3:ℚ)/10 else 0)
  let diamond_score :=
    (if cheekbone_forehead_ratio > 105/100 then (4:ℚ)/10 else 0) +
    (if cheekbone_jaw_ratio > 105/100 then (4:ℚ)/10 else 0) +
    (if 11/10 < length_width ∧ length_width < 13/10 then (2:ℚ)/10 else 0)
  let oval_score :=
    (if 11/10 < length_width ∧ length_width < 13/10 then (4:ℚ)/10 else 0) +
    (if 9/10 < forehead_jaw ∧ forehead_jaw < 11/10 then (3:ℚ)/10 else 0) +
    (if 130 < jawline_angle ∧ jawline_angle < 150 then (3:ℚ)/10 else 0)
  [(FaceShape.ROUND, round_score),
   (FaceShape.OBLONG, oblong_score),
   (FaceShape.HEART, heart_score),
   (FaceShape.TRIANGLE, triangle_score),
   (FaceShape.SQUARE, square_score),
   (FaceShape.DIAMOND, diamond_score),
   (FaceShape.OVAL, oval_score)]

/-- `max(scores, key=scores.get)` paired with its score: Python's `max`
keeps the earliest element and replaces it only on a strictly greater
value. -/
def argmax_first (x : FaceShape × ℚ) (xs : List (FaceShape × ℚ)) :
    FaceShape × ℚ :=
  xs.foldl (fun best y => if y.2 > best.2 then y else best) x

/-- `sorted(scores.values(), reverse=True)`: descending stable sort of
the score values. -/
def sortDesc (l : List ℚ) : List ℚ :=
  l.insertionSort (fun a b => b ≤ a)

/-- Selection tail of
`FaceShapeClassifier._apply_classification_rules`: pick the max-score
shape, set `confidence = min(0.98, 0.7 + (top - second) * 0.5)` from
the two largest scores (the `len(sorted_scores) == 1` fallback of the
source is kept although the table always has seven entries), and force
`(OVAL, 0.6)` when the best score is below 0.3.  The `[]` branch is
unreachable: the score table always has seven entries. -/
def select_best (scores : List (FaceShape × ℚ)) : FaceShape × ℚ :=
  let sorted_scores := sortDesc (scores.map Prod.snd)
  let confidence :=
    match sorted_scores with
    | s0 :: s1 :: _ => min (98/100) (7/10 + (s0 - s1) * (5/10))
    | _ => 85/100
  match scores with
  | [] => (FaceShape.OVAL, 0)
  | x :: xs =>
    let best := argmax_first x xs
    if best.2 < 3/10 then (FaceShape.OVAL, 6/10)
    else (best.1, confidence)

/-- `FaceShapeClassifier._apply_classification_rules` (shape and
confidence; the human-readable `reasoning` string is presentation only
and not modelled): score every category, then select as the source
does. -/
def apply_classification_rules (length_width forehead_jaw jawline_angle
    cheekbone_forehead_ratio cheekbone_jaw_ratio : ℚ) : FaceShape × ℚ :=
  select_best (face_shape_scores length_width forehead_jaw jawline_angle
    cheekbone_forehead_ratio cheekbone_jaw_ratio)

/-- Result of `FaceShapeClassifier.classify` (shape, confidence and the
echoed measurements; the `reasoning` string is not modelled). -/
structure FaceShapeResult where
  shape : FaceShape
  confidence : ℚ
  measurements : Measurements

/-- `FaceShapeClassifier.classify`: read the measurement keys with the
defaults of the source (`1.0`, `1.0`, `140`, `1`, `1`, `1`), derive the
two cheekbone ratios with their zero-denominator guards, and apply the
classification rules. -/
def classify (measurements : Measurements) : FaceShapeResult :=
  let length_width := measurements.length_width_ratio.getD 1
  let forehead_jaw := measurements.forehead_jaw_ratio.getD 1
  let jawline_angle := measurements.jawline_angle.getD 140
  let forehead_width := measurements.forehead_width.getD 1
  let jaw_width := measurements.jaw_width.getD 1
  let cheekbone_width := measurements.cheekbone_width.getD 1
  let cheekbone_forehead_ratio :=
    if forehead_width > 0 then cheekbone_width / forehead_width else 1
  let cheekbone_jaw_ratio :=
    if jaw_width > 0 then cheekbone_width / jaw_width else 1
  let result := apply_classification_rules length_width forehead_jaw
    jawline_angle cheekbone_forehead_ratio cheekbone_jaw_ratio
  ⟨result.1, result.2, measurements⟩

/-! ## Baldness module (`baldness.py`) -/

/-- Python `int()` applied to a float value: truncation toward zero. -/
def pyInt (q : ℚ) : ℤ :=
  if 0 ≤ q then ⌊q⌋ else ⌈q⌉

/-- Hair coverage classification levels, from `baldness.py`. -/
inductive HairCoverageLevel
  | FULL
  | THINNING
  | BALD
deriving DecidableEq, Repr

/-- Result of `BaldnessDetector.analyze`, from `baldness.py`. -/
structure BaldnessResult where
  coverage_level : HairCoverageLevel
  coverage_percentage : ℚ
  confidence : ℚ
  requires_alternative_styling : Bool
deriving DecidableEq, Repr

/-- `BaldnessDetector.FULL_COVERAGE_THRESHOLD`. -/
def FULL_COVERAGE_THRESHOLD : ℚ := 80/100

/-- `BaldnessDetector.THINNING_THRESHOLD`. -/
def THINNING_THRESHOLD : ℚ := 40/100

/-- `BaldnessDetector._extract_scalp_region`, reduced to the shape of
the crop it returns: computes the scalp rectangle above the face
bounding box `(x, y, w, h)` exactly as the source (`int(h * 0.5)`,
`max(0, ...)` clamps, `min(img_width - scalp_x, int(w * 1.2))` width),
returns `none` when either dimension is below the 10px floor, and
otherwise the row/column counts of the numpy slice
`image[scalp_y : scalp_y + scalp_h, scalp_x : scalp_x + scalp_w]`
(slicing with the non-negative start/stop indices produced here clips
both to the image extent). -/
def extract_scalp_region (img_height img_width : ℤ) (x y w h : ℤ) :
    Option (ℕ × ℕ) :=
  let scalp_height := pyInt ((h : ℚ) * (5/10))
  let scalp_y := max 0 (y - scalp_height)
  let scalp_h := y - scalp_y
  let scalp_x := max 0 (x - pyInt ((w : ℚ) * (1/10)))
  let scalp_w := min (img_width - scalp_x) (pyInt ((w : ℚ) * (12/10)))
  if scalp_h < 10 ∨ scalp_w < 10 then none
  else
    let rows := (min (scalp_y + scalp_h) img_height - min scalp_y img_height).toNat
    let cols := (min (scalp_x + scalp_w) img_width - min scalp_x img_width).toNat
    some (rows, cols)

/-- Number of cells of an `rows × cols` grid on which a Boolean mask is
set: the counting step `np.sum(mask > 0)` of the source. -/
def countGrid (rows cols : ℕ) (mask : ℕ → ℕ → Bool) : ℕ :=
  ((List.range rows).map
    (fun i => ((List.range cols).filter (fun j => mask i j)).length)).sum

/-- `BaldnessDetector._calculate_hair_coverage`.  The OpenCV pixel
pipeline (adaptive dark threshold, saturation mask, Canny edges,
morphology) is abstracted as the two per-pixel Boolean masks
`hair_mask` and `edge_mask` over the region's grid; the counting and
arithmetic around them is the source's:
`coverage = hair_pixels / total_pixels * 100` (with the dead
`total_pixels > 0` guard kept) and
`confidence = min(0.95, 0.7 + edge_ratio * 0.5)`. -/
def calculate_hair_coverage (rows cols : ℕ)
    (hair_mask edge_mask : ℕ → ℕ → Bool) : ℚ × ℚ :=
  if rows * cols = 0 then (100, 1/2)
  else
    let total_pixels : ℚ := ((rows * cols : ℕ) : ℚ)
    let hair_pixels : ℚ := (countGrid rows cols hair_mask : ℕ)
    let coverage_percentage :=
      if total_pixels > 0 then hair_pixels / total_pixels * 100 else 0
    let edge_ratio := ((countGrid rows cols edge_mask : ℕ) : ℚ) / total_pixels
    (coverage_percentage, min (95/100) (7/10 + edge_ratio * (5/10)))

/-- `BaldnessDetector.analyze`: extract the scalp region; on `None` or
a zero-size region return the default full-coverage result at
confidence 0.5; otherwise classify the coverage percentage against the
80 / 40 thresholds, with `requires_alternative_styling` set exactly
when the level is not FULL. -/
def baldness_analyze (img_height img_width : ℤ) (x y w h : ℤ)
    (hair_mask edge_mask : ℕ → ℕ → Bool) : BaldnessResult :=
  match extract_scalp_region img_height img_width x y w h with
  | none => ⟨.FULL, 100, 1/2, false⟩
  | some (rows, cols) =>
    if rows * cols = 0 then ⟨.FULL, 100, 1/2, false⟩
    else
      let pc := calculate_hair_coverage rows cols hair_mask edge_mask
      let level :=
        if pc.1 ≥ FULL_COVERAGE_THRESHOLD * 100 then HairCoverageLevel.FULL
        else if pc.1 ≥ THINNING_THRESHOLD * 100 then HairCoverageLevel.THINNING
        else HairCoverageLevel.BALD
      ⟨level, pc.1, pc.2, decide (level ≠ HairCoverageLevel.FULL)⟩

/-! ## Skin tone analyze (`skin_tone.py`, `SkinToneDetector.analyze`) -/

/-- Image of a candidate skin region, abstracted to its numpy `size`
(the pixel-array element count); the pixel contents only matter through
the `extract_lab` parameter of `skin_analyze`. -/
structure SkinRegion where
  size : ℕ
deriving DecidableEq, Repr

/-- Result of skin tone analysis, from `skin_tone.py` (the rendered
`hex_color` string, a LAB→BGR conversion through OpenCV, is not
modelled). -/
structure SkinToneResult where
  fitzpatrick_type : FitzpatrickType
  undertone : Undertone
  confidence : ℚ
  lab_values : ℚ × ℚ × ℚ
deriving DecidableEq, Repr

/-- `SkinToneDetector.analyze`.  The per-region LAB extraction
`_extract_skin_lab_values` (an OpenCV mask pipeline with a
center-crop fallback) is abstracted as the `extract_lab` parameter;
the surrounding control flow is the source's: return `None` when the
region list is empty or every region has zero size, pool the extracted
LAB triples of the non-empty regions, return `None` when nothing was
extracted, otherwise classify the componentwise means. -/
def skin_analyze (extract_lab : SkinRegion → Option (List (ℚ × ℚ × ℚ)))
    (skin_regions : List SkinRegion) : Option SkinToneResult :=
  if skin_regions = [] ∨ ∀ r ∈ skin_regions, r.size = 0 then none
  else
    let all_lab_values := skin_regions.foldl
      (fun acc region =>
        if region.size = 0 then acc
        else
          match extract_lab region with
          | some vals => acc ++ vals
          | none => acc) []
    if all_lab_values = [] then none
    else
      let n : ℚ := (all_lab_values.length : ℕ)
      let avg_l := (all_lab_values.map (fun v => v.1)).sum / n
      let avg_a := (all_lab_values.map (fun v => v.2.1)).sum / n
      let avg_b := (all_lab_values.map (fun v => v.2.2)).sum / n
      let fitz := classify_fitzpatrick avg_l
      let under := classify_undertone avg_a avg_b
      some ⟨fitz.1, under.1, (fitz.2 + under.2) / 2, (avg_l, avg_a, avg_b)⟩

/-! ## Orchestrator (`analyzer.py`) -/

/-- Result of `FaceDetector.detect` (MediaPipe): landmarks plus the
face bounding box `(x, y, width, height)`. -/
structure Detection (Landmarks : Type) where
  landmarks : Landmarks
  bbox : ℤ × ℤ × ℤ × ℤ

/-- External dependencies of `FaceAnalyzer.analyze`: the MediaPipe
face detector and the landmark-based region/measurement helpers of
`detector.py`, plus the pixel-level abstractions threaded to the
skin-tone and baldness modules. -/
structure FaceDetectorEnv (Image Landmarks : Type) where
  detect : Image → Option (Detection Landmarks)
  get_cheek_regions : Image → Landmarks → SkinRegion × SkinRegion
  get_forehead_region : Image → Landmarks → SkinRegion
  get_face_measurements : Landmarks → Measurements
  extract_lab : SkinRegion → Option (List (ℚ × ℚ × ℚ))
  img_height : Image → ℤ
  img_width : Image → ℤ
  hair_mask : Image → ℕ → ℕ → Bool
  edge_mask : Image → ℕ → ℕ → Bool

/-- `FaceAnalysisResult` of `analyzer.py`. -/
structure FaceAnalysisResult where
  detected : Bool
  skin_tone : Option SkinToneResult
  face_shape : Option FaceShapeResult
  hair_coverage : Option BaldnessResult
  color_season : Option String
  overall_confidence : ℚ

/-- `FaceAnalyzer.analyze`: detect the face (returning the fully-empty
result on failure), build the skin-region list from the non-empty
cheek/forehead crops, run the three classifiers, derive the season when
a skin tone is present, and average the present sub-confidences (the
face-shape and baldness results are dataclasses, hence always truthy in
the Python `if` guards). -/
def face_analyze {Image Landmarks : Type}
    (env : FaceDetectorEnv Image Landmarks) (image : Image) :
    FaceAnalysisResult :=
  match env.detect image with
  | none => ⟨false, none, none, none, none, 0⟩
  | some detection =>
    let cheeks := env.get_cheek_regions image detection.landmarks
    let forehead := env.get_forehead_region image detection.landmarks
    let skin_regions :=
      (if cheeks.1.size > 0 then [cheeks.1] else []) ++
      (if cheeks.2.size > 0 then [cheeks.2] else []) ++
      (if forehead.size > 0 then [forehead] else [])
    let skin_tone_result := skin_analyze env.extract_lab skin_regions
    let measurements := env.get_face_measurements detection.landmarks
    let face_shape_result := classify measurements
    let baldness_result := baldness_analyze (env.img_height image)
      (env.img_width image) detection.bbox.1 detection.bbox.2.1
      detection.bbox.2.2.1 detection.bbox.2.2.2
      (env.hair_mask image) (env.edge_mask image)
    let color_season :=
      match skin_tone_result with
      | some st => some (get_season st.fitzpatrick_type st.undertone)
      | none => none
    let confidences :=
      (match skin_tone_result with
       | some st => [st.confidence]
       | none => []) ++
      [face_shape_result.confidence, baldness_result.confidence]
    let overall_confidence :=
      if confidences = [] then 0
      else confidences.sum / (confidences.length : ℚ)
    ⟨true, skin_tone_result, some face_shape_result, some baldness_result,
     color_season, overall_confidence⟩

/-! ## Theorems -/

/-- C1 (counterexample): the claim states that a neutral undertone with
tone level ≤ 3 behaves as warm and yields "spring"; on the code,
`get_season` computes `is_warm = (undertone == WARM)`, so a neutral
undertone with TYPE_I yields "summer", not "spring". -/
theorem get_season_neutral_light_counterexample :
    get_season FitzpatrickType.TYPE_I Undertone.NEUTRAL = "summer" ∧
    get_season FitzpatrickType.TYPE_I Undertone.NEUTRAL ≠ "spring" := by
  constructor
  · rfl
  · decide

/-- C1 (amended): for every Fitzpatrick level f and undertone u,
`get_season` returns "spring" when u is warm and f ≤ 3, "summer" when u
is not warm (cool or neutral) and f ≤ 3, "autumn" when u is warm and
f > 3, and "winter" when u is not warm and f > 3: a neutral undertone
behaves as cool in both tone ranges. -/
theorem get_season_spec :
    ∀ (f : FitzpatrickType) (u : Undertone),
      get_season f u =
        if f.value ≤ 3 then
          (if u = Undertone.WARM then "spring" else "summer")
        else
          (if u = Undertone.WARM then "autumn" else "winter") := by
  intro f u
  cases f <;> cases u <;> rfl

/-- C3: `classify_undertone` shifts a*, b* by +128, forms the ratio
`(b+128)/(a+128)` with the zero-denominator guard, returns WARM exactly
when the ratio is > 1.1, COOL exactly when it is < 0.9 and NEUTRAL
exactly when it lies in [0.9, 1.1]; the confidence is ≤ 0.95 in every
branch; and the ratios 1.15, 0.85 and 1.0 are realised as WARM, COOL
and NEUTRAL respectively. -/
theorem classify_undertone_spec :
    (∀ a_value b_value : ℚ,
      let ratio := (b_value + 128) /
        (if a_value + 128 = 0 then 1/100 else a_value + 128)
      ((classify_undertone a_value b_value).1 = Undertone.WARM ↔ ratio > 11/10) ∧
      ((classify_undertone a_value b_value).1 = Undertone.COOL ↔ ratio < 9/10) ∧
      ((classify_undertone a_value b_value).1 = Undertone.NEUTRAL ↔
        (9/10 ≤ ratio ∧ ratio ≤ 11/10)) ∧
      (classify_undertone a_value b_value).2 ≤ 95/100) ∧
    (classify_undertone (-28) (-13)).1 = Undertone.WARM ∧
    (classify_undertone (-28) (-43)).1 = Undertone.COOL ∧
    (classify_undertone 0 0).1 = Undertone.NEUTRAL := by
  refine ⟨?_, ?_, ?_, ?_⟩
  · intro a_value b_value
    dsimp only [classify_undertone]
    generalize ((b_value + 128) /
      (if a_value + 128 = 0 then (1:ℚ)/100 else a_value + 128)) = r
    split_ifs with h1 h2
    · refine ⟨by simp [h1], ?_, ?_, min_le_left _ _⟩
      · simp only [reduceCtorEq, false_iff]
        intro h
        linarith
      · simp only [reduceCtorEq, false_iff]
        rintro ⟨-, h⟩
        linarith
    · refine ⟨?_, by simp [h2], ?_, min_le_left _ _⟩
      · simp only [reduceCtorEq, false_iff]
        intro h
        linarith
      · simp only [reduceCtorEq, false_iff]
        rintro ⟨h, -⟩
        linarith
    · push_neg at h1 h2
      refine ⟨?_, ?_, by simp [h1, h2], ?_⟩
      · simp only [reduceCtorEq, false_iff]
        intro h
        linarith
      · simp only [reduceCtorEq, false_iff]
        intro h
        linarith
      · dsimp only
        have h := abs_nonneg (r - 1)
        nlinarith [h]
  · norm_num [classify_undertone]
  · norm_num [classify_undertone]
  · norm_num [classify_undertone]

/-- Skipping step of the threshold loop: a band that does not contain
`l_value` is passed over. -/
lemma classify_fitzpatrick_loop_skip (l_value : ℚ) (ft : FitzpatrickType)
    (low high : ℚ) (rest : List (FitzpatrickType × ℚ × ℚ))
    (h : ¬(low ≤ l_value ∧ l_value < high)) :
    classify_fitzpatrick_loop l_value ((ft, low, high) :: rest) =
      classify_fitzpatrick_loop l_value rest := by
  simp only [classify_fitzpatrick_loop, if_neg h]

/-- Hitting step of the threshold loop: the first band containing
`l_value` returns its type and clamped confidence. -/
lemma classify_fitzpatrick_loop_hit (l_value : ℚ) (ft : FitzpatrickType)
    (low high : ℚ) (rest : List (FitzpatrickType × ℚ × ℚ))
    (hlow : low ≤ l_value) (hhigh : l_value < high) :
    classify_fitzpatrick_loop l_value ((ft, low, high) :: rest) =
      some (ft, max (7/10) (min (98/100)
        (1 - |l_value - (low + high)/2| / ((high - low)/2)))) := by
  simp only [classify_fitzpatrick_loop, if_pos (And.intro hlow hhigh)]

/-- Band [75, 100) classifies to TYPE_I. -/
lemma classify_fitzpatrick_band_I (l : ℚ) (h1 : 75 ≤ l) (h2 : l < 100) :
    classify_fitzpatrick l =
      (FitzpatrickType.TYPE_I, max (7/10) (min (98/100)
        (1 - |l - (75 + 100)/2| / ((100 - 75)/2)))) := by
  unfold classify_fitzpatrick FITZPATRICK_L_THRESHOLDS
  rw [classify_fitzpatrick_loop_hit _ _ _ _ _ h1 h2]

/-- Band [65, 75) classifies to TYPE_II. -/
lemma classify_fitzpatrick_band_II (l : ℚ) (h1 : 65 ≤ l) (h2 : l < 75) :
    classify_fitzpatrick l =
      (FitzpatrickType.TYPE_II, max (7/10) (min (98/100)
        (1 - |l - (65 + 75)/2| / ((75 - 65)/2)))) := by
  have hA : ¬((75:ℚ) ≤ l ∧ l < 100) := by rintro ⟨ha, -⟩; linarith
  unfold classify_fitzpatrick FITZPATRICK_L_THRESHOLDS
  rw [classify_fitzpatrick_loop_skip _ _ _ _ _ hA,
    classify_fitzpatrick_loop_hit _ _ _ _ _ h1 h2]

/-- Band [55, 65) classifies to TYPE_III. -/
lemma classify_fitzpatrick_band_III (l : ℚ) (h1 : 55 ≤ l) (h2 : l < 65) :
    classify_fitzpatrick l =
      (FitzpatrickType.TYPE_III, max (7/10) (min (98/100)
        (1 - |l - (55 + 65)/2| / ((65 - 55)/2)))) := by
  have hA : ¬((75:ℚ) ≤ l ∧ l < 100) := by rintro ⟨ha, -⟩; linarith
  have hB : ¬((65:ℚ) ≤ l ∧ l < 75) := by rintro ⟨ha, -⟩; linarith
  unfold classify_fitzpatrick FITZPATRICK_L_THRESHOLDS
  rw [classify_fitzpatrick_loop_skip _ _ _ _ _ hA,
    classify_fitzpatrick_loop_skip _ _ _ _ _ hB,
    classify_fitzpatrick_loop_hit _ _ _ _ _ h1 h2]

/-- Band [45, 55) classifies to TYPE_IV. -/
lemma classify_fitzpatrick_band_IV (l : ℚ) (h1 : 45 ≤ l) (h2 : l < 55) :
    classify_fitzpatrick l =
      (FitzpatrickType.TYPE_IV, max (7/10) (min (98/100)
        (1 - |l - (45 + 55)/2| / ((55 - 45)/2)))) := by
  have hA : ¬((75:ℚ) ≤ l ∧ l < 100) := by rintro ⟨ha, -⟩; linarith
  have hB : ¬((65:ℚ) ≤ l ∧ l < 75) := by rintro ⟨ha, -⟩; linarith
  have hC : ¬((55:ℚ) ≤ l ∧ l < 65) := by rintro ⟨ha, -⟩; linarith
  unfold classify_fitzpatrick FITZPATRICK_L_THRESHOLDS
  rw [classify_fitzpatrick_loop_skip _ _ _ _ _ hA,
    classify_fitzpatrick_loop_skip _ _ _ _ _ hB,
    classify_fitzpatrick_loop_skip _ _ _ _ _ hC,
    classify_fitzpatrick_loop_hit _ _ _ _ _ h1 h2]

/-- Band [35, 45) classifies to TYPE_V. -/
lemma classify_fitzpatrick_band_V (l : ℚ) (h1 : 35 ≤ l) (h2 : l < 45) :
    classify_fitzpatrick l =
      (FitzpatrickType.TYPE_V, max (7/10) (min (98/100)
        (1 - |l - (35 + 45)/2| / ((45 - 35)/2)))) := by
  have hA : ¬((75:ℚ) ≤ l ∧ l < 100) := by rintro ⟨ha, -⟩; linarith
  have hB : ¬((65:ℚ) ≤ l ∧ l < 75) := by rintro ⟨ha, -⟩; linarith
  have hC : ¬((55:ℚ) ≤ l ∧ l < 65) := by rintro ⟨ha, -⟩; linarith
  have hD : ¬((45:ℚ) ≤ l ∧ l < 55) := by rintro ⟨ha, -⟩; linarith
  unfold classify_fitzpatrick FITZPATRICK_L_THRESHOLDS
  rw [classify_fitzpatrick_loop_skip _ _ _ _ _ hA,
    classify_fitzpatrick_loop_skip _ _ _ _ _ hB,
    classify_fitzpatrick_loop_skip _ _ _ _ _ hC,
    classify_fitzpatrick_loop_skip _ _ _ _ _ hD,
    classify_fitzpatrick_loop_hit _ _ _ _ _ h1 h2]

/-- Band [0, 35) classifies to TYPE_VI. -/
lemma classify_fitzpatrick_band_VI (l : ℚ) (h1 : 0 ≤ l) (h2 : l < 35) :
    classify_fitzpatrick l =
      (FitzpatrickType.TYPE_VI, max (7/10) (min (98/100)
        (1 - |l - (0 + 35)/2| / ((35 - 0)/2)))) := by
  have hA : ¬((75:ℚ) ≤ l ∧ l < 100) := by rintro ⟨ha, -⟩; linarith
  have hB : ¬((65:ℚ) ≤ l ∧ l < 75) := by rintro ⟨ha, -⟩; linarith
  have hC : ¬((55:ℚ) ≤ l ∧ l < 65) := by rintro ⟨ha, -⟩; linarith
  have hD : ¬((45:ℚ) ≤ l ∧ l < 55) := by rintro ⟨ha, -⟩; linarith
  have hE : ¬((35:ℚ) ≤ l ∧ l < 45) := by rintro ⟨ha, -⟩; linarith
  unfold classify_fitzpatrick FITZPATRICK_L_THRESHOLDS
  rw [classify_fitzpatrick_loop_skip _ _ _ _ _ hA,
    classify_fitzpatrick_loop_skip _ _ _ _ _ hB,
    classify_fitzpatrick_loop_skip _ _ _ _ _ hC,
    classify_fitzpatrick_loop_skip _ _ _ _ _ hD,
    classify_fitzpatrick_loop_skip _ _ _ _ _ hE,
    classify_fitzpatrick_loop_hit _ _ _ _ _ h1 h2]

/-- C2: any L* value strictly inside one of the six bands classifies to
that band's type with the clamped center-distance confidence; L* values
outside every band snap to the nearest boundary type (TYPE_I for
L* ≥ 100, TYPE_VI for L* < 0) at fixed confidence 0.85; and L* = 60
yields TYPE_III at confidence 0.98 ≥ 0.7. -/
theorem classify_fitzpatrick_spec :
    (∀ l_value : ℚ, ∀ band ∈ FITZPATRICK_L_THRESHOLDS,
        band.2.1 < l_value → l_value < band.2.2 →
        classify_fitzpatrick l_value =
          (band.1, max (7/10) (min (98/100)
            (1 - |l_value - (band.2.1 + band.2.2)/2| /
              ((band.2.2 - band.2.1)/2))))) ∧
    (∀ l_value : ℚ, 100 ≤ l_value →
        classify_fitzpatrick l_value = (FitzpatrickType.TYPE_I, 85/100)) ∧
    (∀ l_value : ℚ, l_value < 0 →
        classify_fitzpatrick l_value = (FitzpatrickType.TYPE_VI, 85/100)) ∧
    classify_fitzpatrick 60 = (FitzpatrickType.TYPE_III, 98/100) := by
  refine ⟨?_, ?_, ?_, ?_⟩
  · intro l band hband h1 h2
    fin_cases hband
    · exact classify_fitzpatrick_band_I l (le_of_lt h1) h2
    · exact classify_fitzpatrick_band_II l (le_of_lt h1) h2
    · exact classify_fitzpatrick_band_III l (le_of_lt h1) h2
    · exact classify_fitzpatrick_band_IV l (le_of_lt h1) h2
    · exact classify_fitzpatrick_band_V l (le_of_lt h1) h2
    · exact classify_fitzpatrick_band_VI l (le_of_lt h1) h2
  · intro l hl
    have hA : ¬((75:ℚ) ≤ l ∧ l < 100) := by rintro ⟨-, hb⟩; linarith
    have hB : ¬((65:ℚ) ≤ l ∧ l < 75) := by rintro ⟨-, hb⟩; linarith
    have hC : ¬((55:ℚ) ≤ l ∧ l < 65) := by rintro ⟨-, hb⟩; linarith
    have hD : ¬((45:ℚ) ≤ l ∧ l < 55) := by rintro ⟨-, hb⟩; linarith
    have hE : ¬((35:ℚ) ≤ l ∧ l < 45) := by rintro ⟨-, hb⟩; linarith
    have hF : ¬((0:ℚ) ≤ l ∧ l < 35) := by rintro ⟨-, hb⟩; linarith
    unfold classify_fitzpatrick FITZPATRICK_L_THRESHOLDS
    rw [classify_fitzpatrick_loop_skip _ _ _ _ _ hA,
      classify_fitzpatrick_loop_skip _ _ _ _ _ hB,
      classify_fitzpatrick_loop_skip _ _ _ _ _ hC,
      classify_fitzpatrick_loop_skip _ _ _ _ _ hD,
      classify_fitzpatrick_loop_skip _ _ _ _ _ hE,
      classify_fitzpatrick_loop_skip _ _ _ _ _ hF]
    simp only [classify_fitzpatrick_loop]
    rw [if_pos (by linarith : (75:ℚ) ≤ l)]
  · intro l hl
    have hA : ¬((75:ℚ) ≤ l ∧ l < 100) := by rintro ⟨ha, -⟩; linarith
    have hB : ¬((65:ℚ) ≤ l ∧ l < 75) := by rintro ⟨ha, -⟩; linarith
    have hC : ¬((55:ℚ) ≤ l ∧ l < 65) := by rintro ⟨ha, -⟩; linarith
    have hD : ¬((45:ℚ) ≤ l ∧ l < 55) := by rintro ⟨ha, -⟩; linarith
    have hE : ¬((35:ℚ) ≤ l ∧ l < 45) := by rintro ⟨ha, -⟩; linarith
    have hF : ¬((0:ℚ) ≤ l ∧ l < 35) := by rintro ⟨ha, -⟩; linarith
    unfold classify_fitzpatrick FITZPATRICK_L_THRESHOLDS
    rw [classify_fitzpatrick_loop_skip _ _ _ _ _ hA,
      classify_fitzpatrick_loop_skip _ _ _ _ _ hB,
      classify_fitzpatrick_loop_skip _ _ _ _ _ hC,
      classify_fitzpatrick_loop_skip _ _ _ _ _ hD,
      classify_fitzpatrick_loop_skip _ _ _ _ _ hE,
      classify_fitzpatrick_loop_skip _ _ _ _ _ hF]
    simp only [classify_fitzpatrick_loop]
    rw [if_neg (by linarith : ¬(75:ℚ) ≤ l)]
  · have h := classify_fitzpatrick_band_III 60 (by norm_num) (by norm_num)
    rw [h]
    norm_num

/-- C2 witness: the out-of-band value L* = 120 snaps to TYPE_I at
confidence 0.85. -/
theorem classify_fitzpatrick_spec_witness :
    classify_fitzpatrick 120 = (FitzpatrickType.TYPE_I, 85/100) :=
  classify_fitzpatrick_spec.2.1 120 (by norm_num)

/-- C4: a measurement mapping with length/width ratio 1.2,
forehead/jaw ratio 1.0 and jawline angle 140° classifies as OVAL, and
one with length/width ratio 1.4 (same other values) classifies as
OBLONG. -/
theorem classify_ratio_examples :
    (classify ⟨some (12/10), some 1, some 140, none, none, none⟩).shape =
      FaceShape.OVAL ∧
    (classify ⟨some (14/10), some 1, some 140, none, none, none⟩).shape =
      FaceShape.OBLONG := by
  constructor <;>
  · norm_num [classify, apply_classification_rules, select_best,
      face_shape_scores, argmax_first, sortDesc, List.insertionSort,
      List.orderedInsert, Option.getD]

/-- The fold implementing Python's `max(scores, key=scores.get)`
returns an element of the list whose score bounds every score. -/
lemma argmax_first_spec (x : FaceShape × ℚ) (xs : List (FaceShape × ℚ)) :
    argmax_first x xs ∈ x :: xs ∧
    ∀ y ∈ x :: xs, y.2 ≤ (argmax_first x xs).2 := by
  induction xs generalizing x with
  | nil =>
    refine ⟨List.mem_singleton_self x, ?_⟩
    intro y hy
    rw [List.mem_singleton] at hy
    rw [hy]
    exact le_refl _
  | cons z zs ih =>
    have hstep : argmax_first x (z :: zs) =
        argmax_first (if z.2 > x.2 then z else x) zs := rfl
    obtain ⟨hmem, hle⟩ := ih (if z.2 > x.2 then z else x)
    have hx : x.2 ≤ (if z.2 > x.2 then z else x).2 := by
      split_ifs with hzx
      · linarith
      · exact le_refl _
    have hz : z.2 ≤ (if z.2 > x.2 then z else x).2 := by
      split_ifs with hzx
      · exact le_refl _
      · push_neg at hzx
        exact hzx
    constructor
    · rw [hstep]
      rcases List.mem_cons.mp hmem with h | h
      · rw [h]
        split_ifs
        · exact List.mem_cons_of_mem _ (List.mem_cons_self _ _)
        · exact List.mem_cons_self _ _
      · exact List.mem_cons_of_mem _ (List.mem_cons_of_mem _ h)
    · intro y hy
      rw [hstep]
      rcases List.mem_cons.mp hy with h | h
      · rw [h]
        exact le_trans hx (hle _ (List.mem_cons_self _ _))
      · rcases List.mem_cons.mp h with h2 | h2
        · rw [h2]
          exact le_trans hz (hle _ (List.mem_cons_self _ _))
        · exact hle y (List.mem_cons_of_mem _ h2)

/-- The descending sort is a permutation of its input. -/
lemma sortDesc_perm (l : List ℚ) : (sortDesc l).Perm l :=
  List.perm_insertionSort _ l

/-- The descending sort is sorted for the reversed order. -/
lemma sortDesc_sorted (l : List ℚ) :
    (sortDesc l).Sorted (fun a b => b ≤ a) := by
  haveI : IsTotal ℚ (fun a b : ℚ => b ≤ a) := ⟨fun a b => le_total b a⟩
  haveI : IsTrans ℚ (fun a b : ℚ => b ≤ a) :=
    ⟨fun _ _ _ hab hbc => le_trans hbc hab⟩
  exact List.sorted_insertionSort _ l

/-- The head of a descending-sorted permutation of `l` bounds every
element of `l`. -/
lemma sorted_head_max (t : ℚ) (rest l : List ℚ)
    (hs : (t :: rest).Sorted (fun a b => b ≤ a))
    (hp : (t :: rest).Perm l) : ∀ v ∈ l, v ≤ t := by
  intro v hv
  have hv2 : v ∈ t :: rest := hp.mem_iff.mpr hv
  rcases List.mem_cons.mp hv2 with h | h
  · rw [h]
  · exact List.rel_of_sorted_cons hs v h

/-- Behaviour of the selection tail on a non-empty score table whose
sorted values start with `top` and `second`. -/
lemma select_best_spec (x : FaceShape × ℚ) (xs : List (FaceShape × ℚ))
    (top second : ℚ) (rest : List ℚ)
    (hsort : sortDesc ((x :: xs).map Prod.snd) = top :: second :: rest) :
    (∀ s ∈ x :: xs, s.2 ≤ top) ∧
    (argmax_first x xs).2 = top ∧
    (top < 3/10 → select_best (x :: xs) = (FaceShape.OVAL, 6/10)) ∧
    (3/10 ≤ top → select_best (x :: xs) =
      ((argmax_first x xs).1,
        min (98/100) (7/10 + (top - second) * (5/10)))) := by
  have hperm : (top :: second :: rest).Perm ((x :: xs).map Prod.snd) :=
    hsort ▸ sortDesc_perm _
  have hsorted : (top :: second :: rest).Sorted (fun a b => b ≤ a) :=
    hsort ▸ sortDesc_sorted _
  have hmax : ∀ v ∈ (x :: xs).map Prod.snd, v ≤ top :=
    sorted_head_max _ _ _ hsorted hperm
  have hallle : ∀ s ∈ x :: xs, s.2 ≤ top :=
    fun s hs => hmax _ (List.mem_map_of_mem _ hs)
  obtain ⟨hamem, hale⟩ := argmax_first_spec x xs
  have h1 : (argmax_first x xs).2 ≤ top := hallle _ hamem
  have h2 : top ≤ (argmax_first x xs).2 := by
    have hmem2 : top ∈ (x :: xs).map Prod.snd :=
      hperm.subset (List.mem_cons_self _ _)
    obtain ⟨s, hs, hse⟩ := List.mem_map.mp hmem2
    rw [← hse]
    exact hale s hs
  have heq : (argmax_first x xs).2 = top := le_antisymm h1 h2
  refine ⟨hallle, heq, ?_, ?_⟩
  · intro hlt
    unfold select_best
    rw [hsort]
    dsimp only
    rw [if_pos (show (argmax_first x xs).2 < 3/10 by rw [heq]; exact hlt)]
  · intro hge
    unfold select_best
    rw [hsort]
    dsimp only
    rw [if_neg (show ¬(argmax_first x xs).2 < 3/10 by
      rw [heq]; exact not_lt.mpr hge)]

/-- C5: whenever the descending sort of the seven category scores
starts with `top` and `second`, the classification picks a category
attaining the maximal score `top` with confidence
`min(0.98, 0.7 + (top - second) * 0.5)`, except that a winning score
below 0.3 forces `(OVAL, 0.6)`; the embedded function is total, so no
input raises an error. -/
theorem apply_classification_rules_spec :
    ∀ (length_width forehead_jaw jawline_angle cheekbone_forehead_ratio
        cheekbone_jaw_ratio top second : ℚ) (rest : List ℚ),
      sortDesc ((face_shape_scores length_width forehead_jaw jawline_angle
          cheekbone_forehead_ratio cheekbone_jaw_ratio).map Prod.snd) =
        top :: second :: rest →
      (∀ s ∈ face_shape_scores length_width forehead_jaw jawline_angle
          cheekbone_forehead_ratio cheekbone_jaw_ratio, s.2 ≤ top) ∧
      (top < 3/10 →
        apply_classification_rules length_width forehead_jaw jawline_angle
          cheekbone_forehead_ratio cheekbone_jaw_ratio =
          (FaceShape.OVAL, 6/10)) ∧
      (3/10 ≤ top →
        (∃ s ∈ face_shape_scores length_width forehead_jaw jawline_angle
            cheekbone_forehead_ratio cheekbone_jaw_ratio,
          s.1 = (apply_classification_rules length_width forehead_jaw
            jawline_angle cheekbone_forehead_ratio cheekbone_jaw_ratio).1 ∧
          s.2 = top) ∧
        (apply_classification_rules length_width forehead_jaw jawline_angle
            cheekbone_forehead_ratio cheekbone_jaw_ratio).2 =
          min (98/100) (7/10 + (top - second) * (5/10))) := by
  intro lw fj ja cf cj top second rest htop
  rcases hq : face_shape_scores lw fj ja cf cj with - | ⟨x, xs⟩
  · rw [hq] at htop
    simp [sortDesc, List.insertionSort] at htop
  · rw [hq] at htop
    simp only [apply_classification_rules, hq]
    obtain ⟨hall, heq2, hfall, hnof⟩ := select_best_spec x xs top second rest htop
    refine ⟨hall, hfall, fun hge => ⟨⟨argmax_first x xs,
      (argmax_first_spec x xs).1, ?_, heq2⟩, ?_⟩⟩
    · rw [hnof hge]
    · rw [hnof hge]

/-- C5 witness: at the inputs (1.2, 1.0, 140, 1, 1) the sorted scores
start with 1 and 0.6, so the confidence is
`min(0.98, 0.7 + (1 - 0.6) * 0.5) = 0.9`. -/
theorem apply_classification_rules_spec_witness :
    (apply_classification_rules (12/10) 1 140 1 1).2 =
      min (98/100) (7/10 + ((1:ℚ) - 6/10) * (5/10)) := by
  have h := apply_classification_rules_spec (12/10) 1 140 1 1 1 (6/10)
    [3/10, 2/10, 2/10, 2/10, 0]
    (by norm_num [face_shape_scores, sortDesc, List.insertionSort,
      List.orderedInsert])
  exact (h.2.2 (by norm_num)).2

/-- C8: when the input region list is empty, or every region in it has
zero size, `SkinToneDetector.analyze` returns the absent result
(`none`); the embedded function is total, so no fault is raised. -/
theorem skin_analyze_all_empty :
    ∀ (extract_lab : SkinRegion → Option (List (ℚ × ℚ × ℚ)))
      (skin_regions : List SkinRegion),
      (skin_regions = [] ∨ ∀ r ∈ skin_regions, r.size = 0) →
      skin_analyze extract_lab skin_regions = none := by
  intro extract_lab skin_regions h
  unfold skin_analyze
  rw [if_pos h]

/-- C8 witness: a single zero-size region yields `none`. -/
theorem skin_analyze_all_empty_witness :
    skin_analyze (fun _ => none) [⟨0⟩] = none :=
  skin_analyze_all_empty (fun _ => none) [⟨0⟩]
    (Or.inr (by intro r hr; simp only [List.mem_singleton] at hr; rw [hr]))

/-- A Boolean mask never sets more cells than the grid has. -/
lemma countGrid_le (rows cols : ℕ) (mask : ℕ → ℕ → Bool) :
    countGrid rows cols mask ≤ rows * cols := by
  unfold countGrid
  have hb : ∀ x ∈ (List.range rows).map
      (fun i => ((List.range cols).filter (fun j => mask i j)).length),
      x ≤ cols := by
    intro x hx
    rw [List.mem_map] at hx
    obtain ⟨i, -, rfl⟩ := hx
    calc ((List.range cols).filter (fun j => mask i j)).length
        ≤ (List.range cols).length := List.length_filter_le _ _
      _ = cols := List.length_range cols
  have h := List.sum_le_card_nsmul _ cols hb
  simpa [List.length_map, List.length_range, smul_eq_mul] using h

/-- On a region of nonzero size, the coverage percentage lies in
[0, 100]. -/
lemma calculate_hair_coverage_bounds (rows cols : ℕ)
    (hair_mask edge_mask : ℕ → ℕ → Bool) :
    0 ≤ (calculate_hair_coverage rows cols hair_mask edge_mask).1 ∧
    (calculate_hair_coverage rows cols hair_mask edge_mask).1 ≤ 100 := by
  unfold calculate_hair_coverage
  split_ifs with h0
  · norm_num
  · dsimp only
    have htot : (0:ℚ) < ((rows * cols : ℕ) : ℚ) :=
      Nat.cast_pos.mpr (Nat.pos_of_ne_zero h0)
    rw [if_pos htot]
    have hle : (countGrid rows cols hair_mask : ℚ) ≤ ((rows * cols : ℕ) : ℚ) :=
      Nat.cast_le.mpr (countGrid_le rows cols hair_mask)
    have h1 : (countGrid rows cols hair_mask : ℚ) /
        ((rows * cols : ℕ) : ℚ) ≤ 1 := (div_le_one htot).mpr hle
    have h2 : 0 ≤ (countGrid rows cols hair_mask : ℚ) /
        ((rows * cols : ℕ) : ℚ) := by positivity
    constructor
    · nlinarith [h2]
    · nlinarith [h1]

/-- C6: whenever the scalp region cannot be extracted (a dimension
below the 10px floor), `BaldnessDetector.analyze` returns the default
full-coverage result (level FULL, percentage 100, confidence 0.5,
`requires_alternative_styling = false`) instead of failing; and every
result it produces has `requires_alternative_styling` true exactly when
the coverage level is not FULL. -/
theorem baldness_analyze_default_spec :
    ∀ (img_height img_width x y w h : ℤ)
      (hair_mask edge_mask : ℕ → ℕ → Bool),
      (extract_scalp_region img_height img_width x y w h = none →
        baldness_analyze img_height img_width x y w h hair_mask edge_mask =
          ⟨HairCoverageLevel.FULL, 100, 1/2, false⟩) ∧
      ((baldness_analyze img_height img_width x y w h hair_mask
          edge_mask).requires_alternative_styling = true ↔
        (baldness_analyze img_height img_width x y w h hair_mask
          edge_mask).coverage_level ≠ HairCoverageLevel.FULL) := by
  intro ih iw x y w h hm em
  constructor
  · intro hn
    unfold baldness_analyze
    rw [hn]
  · unfold baldness_analyze
    rcases extract_scalp_region ih iw x y w h with - | ⟨rows, cols⟩
    · simp
    · dsimp only
      split_ifs with h0 hfull hthin <;> simp

/-- C6 witness: image 100×100 with face box (0, 0, 50, 4): the scalp
height `int(4 * 0.5) = 2` leaves a zero-height crop above `y = 0`, so
the default result is returned. -/
theorem baldness_analyze_default_spec_witness :
    baldness_analyze 100 100 0 0 50 4 (fun _ _ => false) (fun _ _ => false) =
      ⟨HairCoverageLevel.FULL, 100, 1/2, false⟩ :=
  (baldness_analyze_default_spec 100 100 0 0 50 4
    (fun _ _ => false) (fun _ _ => false)).1
    (by norm_num [extract_scalp_region, pyInt])

/-- C7: every result of `BaldnessDetector.analyze` carries a coverage
percentage in [0, 100], and its coverage level is FULL exactly when the
percentage is ≥ 80, THINNING exactly when it lies in [40, 80), and
BALD exactly when it is below 40; on a region of nonzero size the
percentage equals hair-pixel count over total pixel count times 100. -/
theorem baldness_coverage_spec :
    (∀ (img_height img_width x y w h : ℤ)
        (hair_mask edge_mask : ℕ → ℕ → Bool),
      0 ≤ (baldness_analyze img_height img_width x y w h hair_mask
          edge_mask).coverage_percentage ∧
      (baldness_analyze img_height img_width x y w h hair_mask
          edge_mask).coverage_percentage ≤ 100 ∧
      ((baldness_analyze img_height img_width x y w h hair_mask
          edge_mask).coverage_level = HairCoverageLevel.FULL ↔
        80 ≤ (baldness_analyze img_height img_width x y w h hair_mask
          edge_mask).coverage_percentage) ∧
      ((baldness_analyze img_height img_width x y w h hair_mask
          edge_mask).coverage_level = HairCoverageLevel.THINNING ↔
        (40 ≤ (baldness_analyze img_height img_width x y w h hair_mask
          edge_mask).coverage_percentage ∧
         (baldness_analyze img_height img_width x y w h hair_mask
          edge_mask).coverage_percentage < 80)) ∧
      ((baldness_analyze img_height img_width x y w h hair_mask
          edge_mask).coverage_level = HairCoverageLevel.BALD ↔
        (baldness_analyze img_height img_width x y w h hair_mask
          edge_mask).coverage_percentage < 40)) ∧
    (∀ (rows cols : ℕ) (hair_mask edge_mask : ℕ → ℕ → Bool),
      rows * cols ≠ 0 →
      (calculate_hair_coverage rows cols hair_mask edge_mask).1 =
        (countGrid rows cols hair_mask : ℚ) /
          ((rows * cols : ℕ) : ℚ) * 100) := by
  constructor
  · intro ih iw x y w h hm em
    unfold baldness_analyze
    rcases extract_scalp_region ih iw x y w h with - | ⟨rows, cols⟩
    · dsimp only
      refine ⟨by norm_num, by norm_num, ?_, ?_, ?_⟩
      · exact iff_of_true rfl (by norm_num)
      · exact iff_of_false (by decide) (by rintro ⟨-, hlt⟩; norm_num at hlt)
      · exact iff_of_false (by decide) (by intro hlt; norm_num at hlt)
    · dsimp only
      obtain ⟨hb0, hb100⟩ := calculate_hair_coverage_bounds rows cols hm em
      split_ifs with h0 hfull hthin
      · dsimp only
        refine ⟨by norm_num, by norm_num, ?_, ?_, ?_⟩
        · exact iff_of_true rfl (by norm_num)
        · exact iff_of_false (by decide) (by rintro ⟨-, hlt⟩; norm_num at hlt)
        · exact iff_of_false (by decide) (by intro hlt; norm_num at hlt)
      · dsimp only
        norm_num [FULL_COVERAGE_THRESHOLD] at hfull
        refine ⟨hb0, hb100, iff_of_true rfl hfull, ?_, ?_⟩
        · exact iff_of_false (by decide) (by rintro ⟨-, hlt⟩; linarith)
        · exact iff_of_false (by decide) (by intro hlt; linarith)
      · dsimp only
        norm_num [FULL_COVERAGE_THRESHOLD] at hfull
        norm_num [THINNING_THRESHOLD] at hthin
        refine ⟨hb0, hb100, ?_, iff_of_true rfl ⟨hthin, hfull⟩, ?_⟩
        · exact iff_of_false (by decide) (by intro hge; linarith)
        · exact iff_of_false (by decide) (by intro hlt; linarith)
      · dsimp only
        norm_num [FULL_COVERAGE_THRESHOLD] at hfull
        norm_num [THINNING_THRESHOLD] at hthin
        refine ⟨hb0, hb100, ?_, ?_, iff_of_true rfl hthin⟩
        · exact iff_of_false (by decide) (by intro hge; linarith)
        · exact iff_of_false (by decide) (by rintro ⟨hge, -⟩; linarith)
  · intro rows cols hm em h0
    unfold calculate_hair_coverage
    rw [if_neg h0]
    dsimp only
    rw [if_pos (Nat.cast_pos.mpr (Nat.pos_of_ne_zero h0) :
      (0:ℚ) < ((rows * cols : ℕ) : ℚ))]

/-- C7 witness: a fully-set 2×2 mask gives percentage
`4 / 4 * 100`. -/
theorem baldness_coverage_spec_witness :
    (calculate_hair_coverage 2 2 (fun _ _ => true) (fun _ _ => true)).1 =
      (countGrid 2 2 (fun _ _ => true) : ℚ) / (((2 * 2 : ℕ)) : ℚ) * 100 :=
  baldness_coverage_spec.2 2 2 (fun _ _ => true) (fun _ _ => true)
    (by norm_num)

/-- C9: when the landmark provider reports no face, the orchestrator
returns `detected = false`, overall confidence 0, and all four
sub-results absent. -/
theorem face_analyze_no_face :
    ∀ (Image Landmarks : Type) (env : FaceDetectorEnv Image Landmarks)
      (image : Image),
      env.detect image = none →
      face_analyze env image = ⟨false, none, none, none, none, 0⟩ := by
  intro Image Landmarks env image h
  unfold face_analyze
  rw [h]

/-- Trivial environment whose detector finds no face. -/
def unit_env_none : FaceDetectorEnv Unit Unit :=
  ⟨fun _ => none, fun _ _ => (⟨0⟩, ⟨0⟩), fun _ _ => ⟨0⟩,
   fun _ => ⟨none, none, none, none, none, none⟩, fun _ => none,
   fun _ => 0, fun _ => 0, fun _ _ _ => false, fun _ _ _ => false⟩

/-- C9 witness: the no-face environment yields the fully-empty
result. -/
theorem face_analyze_no_face_witness :
    face_analyze unit_env_none () = ⟨false, none, none, none, none, 0⟩ :=
  face_analyze_no_face Unit Unit unit_env_none () rfl

/-- C10: whenever detection succeeds, the returned result has
`detected = true` and its face-shape and hair-coverage sub-results are
always present (the face-shape classifier and the baldness detector
both return a result on every input); only the skin-tone and
color-season fields can be absent. -/
theorem face_analyze_detected_spec :
    ∀ (Image Landmarks : Type) (env : FaceDetectorEnv Image Landmarks)
      (image : Image) (detection : Detection Landmarks),
      env.detect image = some detection →
      (face_analyze env image).detected = true ∧
      ((face_analyze env image).face_shape).isSome = true ∧
      ((face_analyze env image).hair_coverage).isSome = true := by
  intro Image Landmarks env image detection h
  unfold face_analyze
  rw [h]
  exact ⟨rfl, rfl, rfl⟩

/-- Trivial environment whose detector always finds a face. -/
def unit_env_some : FaceDetectorEnv Unit Unit :=
  ⟨fun _ => some ⟨(), (0, 0, 0, 0)⟩, fun _ _ => (⟨0⟩, ⟨0⟩), fun _ _ => ⟨0⟩,
   fun _ => ⟨none, none, none, none, none, none⟩, fun _ => none,
   fun _ => 0, fun _ => 0, fun _ _ _ => false, fun _ _ _ => false⟩

/-- C10 witness: with a detected face, the face-shape and hair-coverage
sub-results are present. -/
theorem face_analyze_detected_spec_witness :
    ((face_analyze unit_env_some ()).face_shape).isSome = true ∧
    ((face_analyze unit_env_some ()).hair_coverage).isSome = true :=
  ⟨(face_analyze_detected_spec Unit Unit unit_env_some ()
      ⟨(), (0, 0, 0, 0)⟩ rfl).2.1,
   (face_analyze_detected_spec Unit Unit unit_env_some ()
      ⟨(), (0, 0, 0, 0)⟩ rfl).2.2⟩

end LookCircuit
